import Mathlib

/-!
Restaurant table-booking API: the request handlers of `index.js`.

A shallow embedding of the seven route handlers of `src/index.js` together with
the resources they touch (the connection pool and the two tables), followed by
the properties of the handlers.

* JSON values of a request body are `JVal`; `JVal.truthy` is the JavaScript
  truthiness used by the `!x` tests of the validation.
* A handler is a `Handler Unit`: a function from the `World` before the request
  to the completion of the handler (normal, or a thrown `JsError`) and the
  `World` after it.  The world holds the tables, the number of checked-out pool
  connections, the faults the data layer will raise, the events performed and
  the response sent.
* `try / catch / finally` is `tryCatchFinally`, with the completion rules of
  JavaScript: the `finally` block always runs and an exception it throws
  replaces the completion of the `try`/`catch` part.
-/

namespace BookingApi

/-! ## JSON values -/

/-- A value held by a field of a parsed JSON body.  `undefined` is the value of
a field the body does not have.  Numbers are integers; arrays and objects are
kept as their text, since the handlers only test them for truthiness and pass
them on. -/
inductive JVal where
  | undefined
  | null
  | bool (b : Bool)
  | num (n : Int)
  | str (s : String)
  | compound (json : String)
  deriving DecidableEq, Repr

/-- JavaScript truthiness: `!v` is `false` exactly when `v.truthy`. -/
def JVal.truthy : JVal → Bool
  | .undefined => false
  | .null => false
  | .bool b => b
  | .num n => n != 0
  | .str s => s != ""
  | .compound _ => true

/-- The value a statement parameter has once handed to the driver: `undefined`
is sent as SQL `NULL`, every other value is sent as it is. -/
def JVal.toParam : JVal → JVal
  | .undefined => .null
  | v => v

/-! ## Tables -/

/-- A row of `users` with the three columns the `INSERT` of `/signup` names. -/
structure User where
  id : JVal
  name : JVal
  email : JVal
  deriving DecidableEq, Repr

/-- Modelled from the spec: the declaration of the `bookings` table is not in the
repository.  A row has the eight columns named by the `INSERT` of
`POST /reservation` and the identifier `id`, which the spec describes as
database-assigned and auto-incrementing.  A column keeps the parameter value it
was given. -/
structure Booking where
  id : Nat
  date : JVal
  number_of_guest : JVal
  full_name : JVal
  email : JVal
  phone_number : JVal
  description : JVal
  user_id : JVal
  title : JVal
  deriving DecidableEq, Repr

/-- The stored data: both tables in insertion order, and the next value of the
sequence behind `bookings.id`. -/
structure DB where
  users : List User
  bookings : List Booking
  nextId : Nat
  deriving DecidableEq, Repr

/-- Modelled from the spec: the column types of the identifier columns are not in
the repository, so the conversion of a statement parameter to the type of
`bookings.id` (`bookingKey`) and of `users.id` / `bookings.user_id` (`userKey`)
is a parameter of the model.  `none` is a parameter that equals no stored
identifier. -/
structure Schema where
  bookingKey : JVal → Option Nat
  userKey : JVal → Option String

/-- The key a parameter denotes in an identifier column: SQL `NULL` denotes
none, any other parameter is converted by the column. -/
def sqlKey {κ : Type} (coerce : JVal → Option κ) (v : JVal) : Option κ :=
  match v.toParam with
  | .null => none
  | p => coerce p

/-- SQL `=` on two keys: true only when both are present and equal. -/
def keyEq {κ : Type} [DecidableEq κ] : Option κ → Option κ → Bool
  | some a, some b => decide (a = b)
  | _, _ => false

/-- The comparison `bookings.id = $n`. -/
def Schema.bookingIs (S : Schema) (p : JVal) (b : Booking) : Bool :=
  keyEq (sqlKey S.bookingKey p) (some b.id)

/-- The comparison `users.id = $n`. -/
def Schema.userIs (S : Schema) (p : JVal) (u : User) : Bool :=
  keyEq (sqlKey S.userKey p) (sqlKey S.userKey u.id)

/-- The comparison `bookings.user_id = $n`. -/
def Schema.ownerIs (S : Schema) (p : JVal) (b : Booking) : Bool :=
  keyEq (sqlKey S.userKey p) (sqlKey S.userKey b.user_id)

/-! ## Request bodies -/

/-- The fields `/signup` reads from `req.body`. -/
structure SignupBody where
  id : JVal
  name : JVal
  email : JVal
  deriving DecidableEq, Repr

/-- The fields `POST /reservation` and `PUT /reservation` read from `req.body`
(`id` is read by `PUT` only, `user_id` by `POST` only). -/
structure ReservationBody where
  id : JVal
  date : JVal
  number_of_guest : JVal
  full_name : JVal
  email : JVal
  phone_number : JVal
  description : JVal
  user_id : JVal
  title : JVal
  deriving DecidableEq, Repr

/-! ## The statements -/

/-- The order of `ORDER BY id DESC`. -/
def idDesc (a b : Booking) : Prop := b.id ≤ a.id

instance : DecidableRel idDesc := fun a b => inferInstanceAs (Decidable (b.id ≤ a.id))

/-- The statement `SELECT * FROM users WHERE id = $1`. -/
def selectUserById (S : Schema) (id : JVal) (db : DB) : List User × DB :=
  (db.users.filter (S.userIs id), db)

/-- The statement `INSERT INTO users (id, name, email) VALUES ($1, $2, $3) RETURNING *`. -/
def insertUser (id name email : JVal) (db : DB) : List User × DB :=
  let row : User := ⟨id.toParam, name.toParam, email.toParam⟩
  ([row], { db with users := db.users ++ [row] })

/-- The statement `SELECT * FROM bookings ORDER BY id DESC`. -/
def selectBookings (db : DB) : List Booking × DB :=
  (db.bookings.insertionSort idDesc, db)

/-- The statement `SELECT * FROM bookings WHERE user_id = $1 ORDER BY id DESC`. -/
def selectBookingsByUser (S : Schema) (id : JVal) (db : DB) : List Booking × DB :=
  ((db.bookings.filter (S.ownerIs id)).insertionSort idDesc, db)

/-- The row built from the `VALUES` clause of the `INSERT` of `POST /reservation`,
with the identifier the sequence gives it. -/
def valuesRow (r : ReservationBody) (id : Nat) : Booking :=
  { id := id
    date := r.date.toParam
    number_of_guest := r.number_of_guest.toParam
    full_name := r.full_name.toParam
    email := r.email.toParam
    phone_number := r.phone_number.toParam
    description := r.description.toParam
    user_id := r.user_id.toParam
    title := r.title.toParam }

/-- The statement `INSERT INTO bookings (date, number_of_guest, full_name, email, phone_number,
description, user_id, title) VALUES ($1, ..., $8) RETURNING *`: the row takes
the next value of the identifier sequence. -/
def insertBooking (r : ReservationBody) (db : DB) : List Booking × DB :=
  ([valuesRow r db.nextId],
   { db with bookings := db.bookings ++ [valuesRow r db.nextId], nextId := db.nextId + 1 })

/-- The `SET` clause of the `UPDATE` of `PUT /reservation`: seven columns are
assigned, `id` and `user_id` are not. -/
def setColumns (r : ReservationBody) (b : Booking) : Booking :=
  { b with
    date := r.date.toParam
    number_of_guest := r.number_of_guest.toParam
    full_name := r.full_name.toParam
    email := r.email.toParam
    phone_number := r.phone_number.toParam
    description := r.description.toParam
    title := r.title.toParam }

/-- The statement `UPDATE bookings SET date = $1, number_of_guest = $2, full_name = $3,
email = $4, phone_number = $5, description = $6, title = $7 WHERE id = $8
RETURNING *`. -/
def updateBooking (S : Schema) (r : ReservationBody) (db : DB) : List Booking × DB :=
  ((db.bookings.filter (S.bookingIs r.id)).map (setColumns r),
   { db with
     bookings := db.bookings.map (fun b => if S.bookingIs r.id b then setColumns r b else b) })

/-- The statement `DELETE FROM bookings WHERE id = $1 RETURNING *`. -/
def deleteBooking (S : Schema) (id : JVal) (db : DB) : List Booking × DB :=
  (db.bookings.filter (S.bookingIs id),
   { db with bookings := db.bookings.filter (fun b => !S.bookingIs id b) })

/-! ## Responses, events and the world -/

/-- The JSON bodies the handlers send. -/
inductive Body where
  | message (message : String)
  | user (row : User)
  | bookings (rows : List Booking)
  | userDetails (message : String) (details : User)
  | details (message : String) (details : Booking)
  | deletedReservation (message : String) (deletedReservation : Booking)
  deriving DecidableEq, Repr

/-- The result of `res.status(status).json(body)`. -/
structure Response where
  status : Nat
  body : Body
  deriving DecidableEq, Repr

/-- An exception value. -/
inductive JsError where
  | connectError (detail : String)
  | queryError (detail : String)
  | typeError (detail : String)
  deriving DecidableEq, Repr

/-- What a handler does to its surroundings, in the order it does it. -/
inductive Event where
  | connect (ok : Bool)
  | query (sql : String) (ok : Bool)
  | release
  | consoleError (error : JsError)
  deriving DecidableEq, Repr

/-- The surroundings of one request.  `connectFault` and `queryFaults` are the
failures the data layer will raise: `connectFault = some d` makes the next
`pool.connect()` fail with detail `d`, and the k-th statement executed fails
with detail `d` when the k-th entry of `queryFaults` is `some d` (a statement
past the end of the list succeeds). -/
structure World where
  db : DB
  checkedOut : Nat
  connectFault : Option String
  queryFaults : List (Option String)
  events : List Event
  response : Option Response
  deriving DecidableEq, Repr

/-- The world at the arrival of a request: nothing done, nothing sent. -/
def World.arrival (db : DB) (checkedOut : Nat) (connectFault : Option String)
    (queryFaults : List (Option String)) : World :=
  { db := db, checkedOut := checkedOut, connectFault := connectFault,
    queryFaults := queryFaults, events := [], response := none }

/-! ## Handler computations -/

/-- How a computation ends: normally with a value, or by a thrown exception. -/
inductive Completion (α : Type) where
  | normal (value : α)
  | thrown (error : JsError)
  deriving DecidableEq, Repr

/-- A computation of a handler: from the world before to its completion and the
world after. -/
def Handler (α : Type) : Type := World → Completion α × World

/-- Sequencing: an exception of the first part skips the second. -/
def Handler.bind {α β : Type} (m : Handler α) (f : α → Handler β) : Handler β :=
  fun w =>
    match m w with
    | (.normal a, w1) => f a w1
    | (.thrown e, w1) => (.thrown e, w1)

instance : Monad Handler where
  pure a := fun w => (.normal a, w)
  bind := Handler.bind

/-- The statement `throw e`. -/
def throwJs {α : Type} (e : JsError) : Handler α := fun w => (.thrown e, w)

/-- The statement `try { body } catch (error) { handler } finally { fin }`. -/
def tryCatchFinally {α : Type} (body : Handler α) (handler : JsError → Handler α)
    (fin : Handler Unit) : Handler α :=
  fun w =>
    let caught : Completion α × World :=
      match body w with
      | (.normal a, w1) => (.normal a, w1)
      | (.thrown e, w1) => handler e w1
    match fin caught.2 with
    | (.normal _, w3) => (caught.1, w3)
    | (.thrown e, w3) => (.thrown e, w3)

/-- Record an event. -/
def emit (e : Event) : Handler Unit :=
  fun w => (.normal (), { w with events := w.events ++ [e] })

/-- A pooled connection. -/
inductive PoolClient where
  | mk
  deriving DecidableEq, Repr

/-- The promise returned by `pool.connect()`, already settled. -/
inductive ClientPromise where
  | fulfilled (client : PoolClient)
  | rejected (error : JsError)
  deriving DecidableEq, Repr

/-- The value of the variable `client` on which `release` is called. -/
inductive ClientVar where
  | client (c : PoolClient)
  | promise (p : ClientPromise)
  deriving DecidableEq, Repr

/-- The call `pool.connect()`: checks a connection out of the pool, or fails. -/
def poolConnect : Handler ClientPromise :=
  fun w =>
    match w.connectFault with
    | some d =>
      (.normal (.rejected (.connectError d)), { w with events := w.events ++ [.connect false] })
    | none =>
      (.normal (.fulfilled .mk),
       { w with checkedOut := w.checkedOut + 1, events := w.events ++ [.connect true] })

/-- The expression `await p`. -/
def await (p : ClientPromise) : Handler PoolClient :=
  match p with
  | .fulfilled c => pure c
  | .rejected e => throwJs e

/-- The call `client.query(sql, params)`, `run` being the meaning of the
statement.  A failing statement changes nothing. -/
def query {ρ : Type} (_client : PoolClient) (sql : String) (run : DB → List ρ × DB) :
    Handler (List ρ) :=
  fun w =>
    match w.queryFaults with
    | some d :: rest =>
      (.thrown (.queryError d),
       { w with queryFaults := rest, events := w.events ++ [.query sql false] })
    | faults =>
      (.normal (run w.db).1,
       { w with db := (run w.db).2, queryFaults := faults.tail,
                events := w.events ++ [.query sql true] })

/-- The call `client.release()`.  A pooled connection goes back to the pool; a
promise has no method `release`. -/
def release (client : ClientVar) : Handler Unit :=
  match client with
  | .client _ =>
    fun w =>
      (.normal (), { w with checkedOut := w.checkedOut - 1, events := w.events ++ [.release] })
  | .promise _ => throwJs (.typeError "client.release is not a function")

/-- The call `res.status(status).json(body)`. -/
def respond (status : Nat) (body : Body) : Handler Unit :=
  fun w => (.normal (), { w with response := some ⟨status, body⟩ })

/-- The call `console.error(error)`. -/
def consoleError (error : JsError) : Handler Unit := emit (.consoleError error)

/-- The `catch` block shared by all handlers. -/
def catchBlock (error : JsError) : Handler Unit := do
  consoleError error
  respond 500 (.message "Internal server error")

/-! ## The route handlers -/

/-- The handler of `GET /users/:id`. -/
def getUser (S : Schema) (id : String) : Handler Unit := do
  let client ← await (← poolConnect)
  tryCatchFinally
    (do
      let rows ← query client "SELECT * FROM users WHERE id = $1" (selectUserById S (.str id))
      match rows with
      | [] => respond 404 (.message "User not found")
      | row :: _ => respond 200 (.user row))
    catchBlock
    (release (.client client))

/-- The handler of `POST /signup`. -/
def signup (S : Schema) (body : SignupBody) : Handler Unit := do
  let client ← await (← poolConnect)
  tryCatchFinally
    (do
      let isExists ← query client "SELECT * FROM users WHERE id = $1" (selectUserById S body.id)
      if isExists.length > 0 then
        respond 400 (.message "User existed")
      else
        let rows ← query client
          "INSERT INTO users (id, name, email) VALUES ($1, $2, $3) RETURNING *"
          (insertUser body.id body.name body.email)
        match rows with
        | [] => respond 201 (.message "User register successful")
        | row :: _ => respond 201 (.userDetails "User register successful" row))
    catchBlock
    (release (.client client))

/-- The handler of `GET /reservation`. -/
def listReservations : Handler Unit := do
  let client ← await (← poolConnect)
  tryCatchFinally
    (do
      let rows ← query client "SELECT * FROM bookings ORDER BY id DESC" selectBookings
      if rows.length = 0 then
        respond 404 (.message "No records")
      else
        respond 200 (.bookings rows))
    catchBlock
    (release (.client client))

/-- The handler of `GET /reservation/:id`. -/
def reservationsOfUser (S : Schema) (id : String) : Handler Unit := do
  let client ← await (← poolConnect)
  tryCatchFinally
    (do
      let rows ← query client "SELECT * FROM bookings WHERE user_id = $1 ORDER BY id DESC"
        (selectBookingsByUser S (.str id))
      if rows.length = 0 then
        respond 404 (.message "Bookings does not exists")
      else
        respond 200 (.bookings rows))
    catchBlock
    (release (.client client))

/-- The test `!date || !number_of_guest || !full_name || !email || !phone_number`. -/
def missingRequired (r : ReservationBody) : Bool :=
  !r.date.truthy || !r.number_of_guest.truthy || !r.full_name.truthy || !r.email.truthy
    || !r.phone_number.truthy

/-- The handler of `POST /reservation`. -/
def createReservation (body : ReservationBody) : Handler Unit := do
  if missingRequired body then
    respond 400 (.message "Please fulfill all required fields")
  else
    let client ← await (← poolConnect)
    tryCatchFinally
      (do
        let rows ← query client
          "INSERT INTO bookings (date, number_of_guest, full_name, email, phone_number, description, user_id, title) VALUES ($1, $2, $3, $4, $5, $6, $7, $8) RETURNING *"
          (insertBooking body)
        match rows with
        | [] => respond 201 (.message "Reservation added successful")
        | row :: _ => respond 201 (.details "Reservation added successful" row))
      catchBlock
      (release (.client client))

/-- The handler of `PUT /reservation`.  The variable `client` holds the promise
returned by `pool.connect()`: it is awaited where the statement is sent, and it
is the promise on which the `finally` block calls `release`. -/
def updateReservation (S : Schema) (body : ReservationBody) : Handler Unit := do
  if missingRequired body then
    respond 400 (.message "Please fulfill all required fields")
  else
    let client ← poolConnect
    tryCatchFinally
      (do
        let rows ← query (← await client)
          "UPDATE bookings SET date = $1, number_of_guest = $2, full_name = $3, email = $4, phone_number = $5, description = $6, title = $7 WHERE id = $8 RETURNING *;"
          (updateBooking S body)
        match rows with
        | [] => respond 404 (.message "Reservation not found")
        | row :: _ => respond 200 (.details "Reservation updated" row))
      catchBlock
      (release (.promise client))

/-- The handler of `DELETE /reservation/:id`. -/
def deleteReservation (S : Schema) (id : String) : Handler Unit := do
  let client ← await (← poolConnect)
  tryCatchFinally
    (do
      let rows ← query client "DELETE FROM bookings WHERE id = $1 RETURNING *;"
        (deleteBooking S (.str id))
      match rows with
      | [] => respond 404 (.message "Reservation not found")
      | row :: _ => respond 200 (.deletedReservation "Reservation deleted successfully" row))
    catchBlock
    (release (.client client))

/-- A request to one of the seven routes that use the pool. -/
inductive Request where
  | getUser (id : String)
  | signup (body : SignupBody)
  | listReservations
  | reservationsOfUser (id : String)
  | createReservation (body : ReservationBody)
  | updateReservation (body : ReservationBody)
  | deleteReservation (id : String)
  deriving DecidableEq, Repr

/-- The routing table: the handler registered for a request. -/
def handle (S : Schema) : Request → Handler Unit
  | .getUser id => getUser S id
  | .signup body => signup S body
  | .listReservations => listReservations
  | .reservationsOfUser id => reservationsOfUser S id
  | .createReservation body => createReservation body
  | .updateReservation body => updateReservation S body
  | .deleteReservation id => deleteReservation S id

/-! ## Observations on a finished request -/

/-- The number of `client.release()` calls that gave a connection back. -/
def releases (w : World) : Nat := w.events.count .release

/-- The number of connections checked out of the pool. -/
def acquisitions (w : World) : Nat := w.events.count (.connect true)

/-- The decimal reading of a list of digits, most significant first. -/
def digitsValue : List Char → Nat → Option Nat
  | [], acc => some acc
  | c :: cs, acc => if c.isDigit then digitsValue cs (acc * 10 + (c.toNat - 48)) else none

/-- A sample schema: `bookings.id` is an integer column, `users.id` a text column. -/
def sampleSchema : Schema where
  bookingKey
    | .num n => if 0 ≤ n then some n.toNat else none
    | .str s => if s.data = [] then none else digitsValue s.data 0
    | _ => none
  userKey
    | .str s => some s
    | .num n => some (toString n)
    | _ => none

/-! ## Well-formed tables and reachable data -/

/-- Identifiers of bookings are pairwise distinct and below the next value of
the sequence. -/
def DB.WF (db : DB) : Prop :=
  (db.bookings.map Booking.id).Nodup ∧ ∀ b ∈ db.bookings, b.id < db.nextId

/-- The five required columns of a booking hold truthy values. -/
def Booking.populated (b : Booking) : Prop :=
  b.date.truthy = true ∧ b.number_of_guest.truthy = true ∧ b.full_name.truthy = true ∧
    b.email.truthy = true ∧ b.phone_number.truthy = true

/-- The data reachable from an empty `bookings` table by serving requests, each
in arbitrary surroundings (any pool state, any faults of the data layer). -/
inductive Reachable (S : Schema) : DB → Prop where
  | start (users : List User) (nextId : Nat) : Reachable S ⟨users, [], nextId⟩
  | step (req : Request) (w : World) : Reachable S w.db → Reachable S (handle S req w).2.db

/-- The world in which the next request arrives, given no fault of the data
layer: the data and the pool as the previous request left them. -/
def World.thenArrival (w : World) : World := World.arrival w.db w.checkedOut none []


instance : IsTotal Booking idDesc := ⟨fun a b => Nat.le_total b.id a.id⟩

instance : IsTrans Booking idDesc := ⟨fun _ _ _ hab hbc => Nat.le_trans hbc hab⟩

/-! ## Sample data -/

/-- A complete body: all five required fields truthy, no `description`. -/
def sampleBody : ReservationBody :=
  { id := .num 1, date := .str "2025-03-01", number_of_guest := .num 4,
    full_name := .str "Ann Lee", email := .str "ann@example.com",
    phone_number := .str "0123456789", description := .undefined, user_id := .str "u7",
    title := .str "Birthday" }

/-- A body with the five required fields only. -/
def bareBody : ReservationBody :=
  { id := .undefined, date := .str "2025-03-01", number_of_guest := .num 4,
    full_name := .str "Ann Lee", email := .str "ann@example.com",
    phone_number := .str "0123456789", description := .undefined, user_id := .undefined,
    title := .undefined }

/-- A body without `phone_number`. -/
def incompleteBody : ReservationBody := { sampleBody with phone_number := .undefined }

/-- A stored booking with identifier 1. -/
def sampleBooking : Booking :=
  { id := 1, date := .str "2025-02-14", number_of_guest := .num 2, full_name := .str "Ann Lee",
    email := .str "ann@example.com", phone_number := .str "0123456789", description := .null,
    user_id := .null, title := .null }

/-- A second stored booking, with identifier 5. -/
def otherBooking : Booking :=
  { sampleBooking with id := 5, full_name := .str "Bo Tan", user_id := .str "u9" }

/-- Stored data with two bookings and one user. -/
def sampleDB : DB := ⟨[⟨.str "u7", .str "Ann", .str "ann@example.com"⟩],
  [sampleBooking, otherBooking], 6⟩

/-- Stored data with no booking. -/
def emptyDB : DB := ⟨[], [], 1⟩

/-- A signup body whose identifier is not in `sampleDB`. -/
def sampleSignup : SignupBody := ⟨.str "u8", .str "Cy", .undefined⟩

/-! ## Lemmas on values and statements -/

theorem truthy_eq_false_iff (v : JVal) :
    v.truthy = false ↔
      v = .undefined ∨ v = .null ∨ v = .str "" ∨ v = .num 0 ∨ v = .bool false := by
  cases v <;> simp [JVal.truthy]

theorem toParam_of_truthy {v : JVal} (h : v.truthy = true) : v.toParam = v := by
  cases v <;> simp_all [JVal.truthy, JVal.toParam]

theorem missingRequired_eq_false {r : ReservationBody} :
    missingRequired r = false ↔
      r.date.truthy = true ∧ r.number_of_guest.truthy = true ∧ r.full_name.truthy = true ∧
        r.email.truthy = true ∧ r.phone_number.truthy = true := by
  simp [missingRequired, and_assoc]

theorem bookingIs_of_key {S : Schema} {p : JVal} {k : Nat} (h : sqlKey S.bookingKey p = some k)
    (x : Booking) : S.bookingIs p x = decide (k = x.id) := by
  simp [Schema.bookingIs, h, keyEq]

theorem eq_of_id_eq {bs : List Booking} (hnd : (bs.map Booking.id).Nodup) {x y : Booking}
    (hx : x ∈ bs) (hy : y ∈ bs) (h : x.id = y.id) : x = y :=
  List.inj_on_of_nodup_map hnd hx hy h

theorem filter_id_eq_singleton {bs : List Booking} (hnd : (bs.map Booking.id).Nodup)
    {b : Booking} (hb : b ∈ bs) : bs.filter (fun x => decide (b.id = x.id)) = [b] := by
  induction bs with
  | nil => simp at hb
  | cons a t ih =>
    rw [List.map_cons, List.nodup_cons] at hnd
    rcases List.mem_cons.mp hb with rfl | hbt
    · have : t.filter (fun x => decide (b.id = x.id)) = [] := by
        rw [List.filter_eq_nil_iff]
        intro x hx hxe
        exact hnd.1 (List.mem_map.mpr ⟨x, hx, (of_decide_eq_true hxe).symm⟩)
      simp [List.filter_cons, this]
    · have hne : ¬ b.id = a.id := fun h => hnd.1 (List.mem_map.mpr ⟨b, hbt, h⟩)
      simp [List.filter_cons, hne, ih hnd.2 hbt]

theorem filter_id_ne_eq_erase {bs : List Booking} (hnd : (bs.map Booking.id).Nodup)
    {b : Booking} (hb : b ∈ bs) : bs.filter (fun x => !decide (b.id = x.id)) = bs.erase b := by
  rw [(List.Nodup.of_map _ hnd).erase_eq_filter]
  apply List.filter_congr
  intro x hx
  by_cases h : b.id = x.id
  · have := eq_of_id_eq hnd hb hx h
    simp [h, this]
  · have : x ≠ b := fun e => h (e ▸ rfl)
    simp [h, this]

theorem map_update_eq {S : Schema} {p : JVal} {bs : List Booking} {b : Booking}
    (f : Booking → Booking) (hnd : (bs.map Booking.id).Nodup) (hb : b ∈ bs)
    (hid : sqlKey S.bookingKey p = some b.id) :
    bs.map (fun x => if S.bookingIs p x = true then f x else x) =
      bs.map (fun x => if x = b then f b else x) := by
  apply List.map_congr_left
  intro x hx
  rw [bookingIs_of_key hid]
  by_cases h : b.id = x.id
  · have := eq_of_id_eq hnd hb hx h
    simp [this]
  · have : x ≠ b := fun e => h (e ▸ rfl)
    simp [h, this]

theorem map_update_none {S : Schema} {p : JVal} {bs : List Booking} (f : Booking → Booking)
    (hno : ∀ b ∈ bs, sqlKey S.bookingKey p ≠ some b.id) :
    bs.map (fun x => if S.bookingIs p x = true then f x else x) = bs := by
  have : ∀ x ∈ bs, (if S.bookingIs p x = true then f x else x) = x := by
    intro x hx
    have h := hno x hx
    cases hk : sqlKey S.bookingKey p with
    | none => simp [Schema.bookingIs, hk, keyEq]
    | some k =>
      have : k ≠ x.id := fun e => h (by rw [hk, e])
      simp [Schema.bookingIs, hk, keyEq, this]
  calc bs.map (fun x => if S.bookingIs p x = true then f x else x)
      = bs.map id := List.map_congr_left this
    _ = bs := List.map_id bs

theorem filter_bookingIs_none {S : Schema} {p : JVal} {bs : List Booking}
    (hno : ∀ b ∈ bs, sqlKey S.bookingKey p ≠ some b.id) :
    bs.filter (S.bookingIs p) = [] := by
  rw [List.filter_eq_nil_iff]
  intro x hx hxe
  have h := hno x hx
  cases hk : sqlKey S.bookingKey p with
  | none => simp [Schema.bookingIs, hk, keyEq] at hxe
  | some k =>
    simp [Schema.bookingIs, hk, keyEq] at hxe
    exact h (by rw [hk, hxe])

/-! ## Validation of `POST /reservation` -/

/-- C1: when one of the five required fields of a `POST /reservation` body is
missing or falsy, the handler completes normally having only sent status 400
with the message "Please fulfill all required fields": no event is performed (no
connection asked for, no statement sent), the pool and the tables are as
before. -/
theorem createReservation_rejects_missing_field (S : Schema) (body : ReservationBody) (w : World)
    (h : body.date.truthy = false ∨ body.number_of_guest.truthy = false ∨
      body.full_name.truthy = false ∨ body.email.truthy = false ∨
      body.phone_number.truthy = false) :
    handle S (.createReservation body) w =
      (.normal (),
       { w with response := some ⟨400, .message "Please fulfill all required fields"⟩ }) := by
  have hm : missingRequired body = true := by
    unfold missingRequired
    rcases h with h | h | h | h | h <;> simp [h]
  simp [handle, createReservation, hm, respond]

/-! ## `PUT /reservation` -/

/-- C6: a `PUT /reservation` whose five required fields are truthy and whose `id`
denotes the identifier of no stored booking, served without a fault of the data
layer, sends status 404 with the message "Reservation not found" and leaves the
stored data as it was. -/
theorem updateReservation_unknown_id (S : Schema) (db : DB) (n : Nat) (body : ReservationBody)
    (hreq : body.date.truthy = true ∧ body.number_of_guest.truthy = true ∧
      body.full_name.truthy = true ∧ body.email.truthy = true ∧
      body.phone_number.truthy = true)
    (hno : ∀ b ∈ db.bookings, sqlKey S.bookingKey body.id ≠ some b.id) :
    (handle S (.updateReservation body) (World.arrival db n none [])).2.response =
        some ⟨404, .message "Reservation not found"⟩ ∧
      (handle S (.updateReservation body) (World.arrival db n none [])).2.db = db := by
  have hm : missingRequired body = false := missingRequired_eq_false.mpr hreq
  simp [handle, updateReservation, hm, World.arrival, bind, Handler.bind, pure, poolConnect,
    await, tryCatchFinally, query, release, respond, throwJs, updateBooking,
    filter_bookingIs_none hno, map_update_none _ hno]

/-- C10: a `PUT /reservation` whose five required fields are truthy and whose `id`
denotes the identifier of the stored booking `b`, served without a fault of the
data layer, sends status 200 with the message "Reservation updated" and the
updated record `u` as details.  The record `u` has the request's `date`,
`number_of_guest`, `full_name`, `email` and `phone_number`, the request's
`description` and `title` as handed to the statement (SQL `NULL` for a field the
body lacks), and the `id` and `user_id` of `b`, whatever `user_id` the body
carries.  The table afterwards is the table before with `b` replaced by `u`;
nothing else of the stored data changes. -/
theorem updateReservation_existing_id (S : Schema) (db : DB) (n : Nat) (body : ReservationBody)
    (b : Booking)
    (hreq : body.date.truthy = true ∧ body.number_of_guest.truthy = true ∧
      body.full_name.truthy = true ∧ body.email.truthy = true ∧
      body.phone_number.truthy = true)
    (hnd : (db.bookings.map Booking.id).Nodup) (hb : b ∈ db.bookings)
    (hid : sqlKey S.bookingKey body.id = some b.id) :
    ∃ u : Booking,
      (handle S (.updateReservation body) (World.arrival db n none [])).2.response =
          some ⟨200, .details "Reservation updated" u⟩ ∧
        u.date = body.date ∧ u.number_of_guest = body.number_of_guest ∧
        u.full_name = body.full_name ∧ u.email = body.email ∧
        u.phone_number = body.phone_number ∧
        u.description = body.description.toParam ∧ u.title = body.title.toParam ∧
        u.id = b.id ∧ u.user_id = b.user_id ∧
        (handle S (.updateReservation body) (World.arrival db n none [])).2.db =
          { db with bookings := db.bookings.map (fun x => if x = b then u else x) } := by
  have hm : missingRequired body = false := missingRequired_eq_false.mpr hreq
  obtain ⟨h1, h2, h3, h4, h5⟩ := hreq
  have hf : db.bookings.filter (S.bookingIs body.id) = [b] := by
    have : S.bookingIs body.id = fun x => decide (b.id = x.id) := funext (bookingIs_of_key hid)
    rw [this]
    exact filter_id_eq_singleton hnd hb
  refine ⟨setColumns body b, ?_, ?_, ?_, ?_, ?_, ?_, rfl, rfl, rfl, rfl, ?_⟩
  · simp [handle, updateReservation, hm, World.arrival, bind, Handler.bind, pure, poolConnect,
      await, tryCatchFinally, query, release, respond, throwJs, updateBooking, hf]
  · exact toParam_of_truthy h1
  · exact toParam_of_truthy h2
  · exact toParam_of_truthy h3
  · exact toParam_of_truthy h4
  · exact toParam_of_truthy h5
  · simp [handle, updateReservation, hm, World.arrival, bind, Handler.bind, pure, poolConnect,
      await, tryCatchFinally, query, release, respond, throwJs, updateBooking, hf,
      map_update_eq (setColumns body) hnd hb hid]

/-! ## `DELETE /reservation/:id` -/

/-- C7: two consecutive `DELETE /reservation/:id` requests whose path parameter
denotes the identifier of the stored booking `b`, served without a fault of the
data layer.  The first sends status 200 with the message "Reservation deleted
successfully" and `b` as the deleted reservation, and leaves the table without
`b` and otherwise as it was; the second sends status 404 with the message
"Reservation not found". -/
theorem deleteReservation_twice (S : Schema) (db : DB) (n : Nat) (id : String) (b : Booking)
    (hnd : (db.bookings.map Booking.id).Nodup) (hb : b ∈ db.bookings)
    (hid : S.bookingKey (.str id) = some b.id) :
    (handle S (.deleteReservation id) (World.arrival db n none [])).2.response =
        some ⟨200, .deletedReservation "Reservation deleted successfully" b⟩ ∧
      (handle S (.deleteReservation id) (World.arrival db n none [])).2.db =
        { db with bookings := db.bookings.erase b } ∧
      b ∉ (handle S (.deleteReservation id) (World.arrival db n none [])).2.db.bookings ∧
      (handle S (.deleteReservation id)
          (handle S (.deleteReservation id) (World.arrival db n none [])).2.thenArrival).2.response =
        some ⟨404, .message "Reservation not found"⟩ := by
  have hk : sqlKey S.bookingKey (.str id) = some b.id := hid
  have hfun : S.bookingIs (.str id) = fun x => decide (b.id = x.id) :=
    funext (bookingIs_of_key hk)
  have hf : db.bookings.filter (S.bookingIs (.str id)) = [b] := by
    rw [hfun]; exact filter_id_eq_singleton hnd hb
  have hg : db.bookings.filter (fun x => !S.bookingIs (.str id) x) = db.bookings.erase b := by
    rw [hfun]; exact filter_id_ne_eq_erase hnd hb
  have hnot : b ∉ db.bookings.erase b := (List.Nodup.of_map _ hnd).not_mem_erase
  have hnone : ∀ x ∈ db.bookings.erase b, sqlKey S.bookingKey (.str id) ≠ some x.id := by
    intro x hx he
    rw [hk] at he
    have hxb : x = b :=
      eq_of_id_eq hnd (List.mem_of_mem_erase hx) hb (Option.some.inj he).symm
    exact hnot (hxb ▸ hx)
  have hdb : (handle S (.deleteReservation id) (World.arrival db n none [])).2.db =
      { db with bookings := db.bookings.erase b } := by
    simp [handle, deleteReservation, World.arrival, bind, Handler.bind, pure, poolConnect,
      await, tryCatchFinally, query, release, respond, throwJs, deleteBooking, hf, hg]
  refine ⟨?_, hdb, ?_, ?_⟩
  · simp [handle, deleteReservation, World.arrival, bind, Handler.bind, pure, poolConnect,
      await, tryCatchFinally, query, release, respond, throwJs, deleteBooking, hf]
  · rw [hdb]; exact hnot
  · have hf2 : (db.bookings.erase b).filter (S.bookingIs (.str id)) = [] :=
      filter_bookingIs_none hnone
    simp only [World.thenArrival, hdb]
    simp [handle, deleteReservation, World.arrival, bind, Handler.bind, pure, poolConnect,
      await, tryCatchFinally, query, release, respond, throwJs, deleteBooking, hf2]

/-! ## `GET /reservation` -/

theorem sorted_idDesc_strict {l : List Booking} (hs : l.Sorted idDesc)
    (hnd : (l.map Booking.id).Nodup) : l.Pairwise (fun a b => b.id < a.id) := by
  have hne : l.Pairwise (fun a b => a.id ≠ b.id) := by
    have := hnd
    rw [List.Nodup, List.pairwise_map] at this
    exact this
  exact (List.Pairwise.and hs hne).imp
    (fun {a b} h => Nat.lt_of_le_of_ne h.1 (fun e => h.2 e.symm))

/-- C3: `GET /reservation`, served without a fault of the data layer on a table
whose identifiers are pairwise distinct, sends status 404 with the message
"No records" exactly when the table is empty; otherwise it sends status 200 with
an array that is a rearrangement of the table (every booking once) in strictly
descending order of identifier. -/
theorem listReservations_response (S : Schema) (db : DB) (n : Nat)
    (hnd : (db.bookings.map Booking.id).Nodup) :
    ((handle S .listReservations (World.arrival db n none [])).2.response =
        some ⟨404, .message "No records"⟩ ↔ db.bookings = []) ∧
      (db.bookings ≠ [] →
        ∃ rows : List Booking,
          (handle S .listReservations (World.arrival db n none [])).2.response =
              some ⟨200, .bookings rows⟩ ∧
            rows.Perm db.bookings ∧ rows.Pairwise (fun a b => b.id < a.id)) := by
  have hperm := List.perm_insertionSort idDesc db.bookings
  have hsorted := List.sorted_insertionSort idDesc db.bookings
  by_cases he : db.bookings = []
  · simp [handle, listReservations, World.arrival, bind, Handler.bind, pure, poolConnect,
      await, tryCatchFinally, query, release, respond, throwJs, selectBookings, he]
  · have hlen : (db.bookings.insertionSort idDesc).length ≠ 0 := by
      rw [List.length_insertionSort]
      exact fun h => he (List.length_eq_zero.mp h)
    have hresp : (handle S .listReservations (World.arrival db n none [])).2.response =
        some ⟨200, .bookings (db.bookings.insertionSort idDesc)⟩ := by
      simp [handle, listReservations, World.arrival, bind, Handler.bind, pure, poolConnect,
        await, tryCatchFinally, query, release, respond, throwJs, selectBookings, hlen, he]
    refine ⟨?_, fun _ => ⟨_, hresp, hperm, ?_⟩⟩
    · rw [hresp]
      simp [he]
    · exact sorted_idDesc_strict hsorted ((hperm.map Booking.id).nodup_iff.mpr hnd)

/-- Witness of C3 on a table with the identifiers 1 and 5. -/
theorem listReservations_response_witness :
    (sampleDB.bookings.map Booking.id).Nodup ∧
      (((handle sampleSchema .listReservations (World.arrival sampleDB 0 none [])).2.response =
          some ⟨404, .message "No records"⟩ ↔ sampleDB.bookings = []) ∧
        (sampleDB.bookings ≠ [] →
          ∃ rows : List Booking,
            (handle sampleSchema .listReservations (World.arrival sampleDB 0 none [])).2.response =
                some ⟨200, .bookings rows⟩ ∧
              rows.Perm sampleDB.bookings ∧ rows.Pairwise (fun a b => b.id < a.id))) :=
  ⟨by decide, listReservations_response sampleSchema sampleDB 0 (by decide)⟩

theorem head_of_sorted_max {l : List Booking} {row : Booking} (hs : l.Sorted idDesc)
    (hrow : row ∈ l) (hmax : ∀ x ∈ l, x ≠ row → x.id < row.id) : l.head? = some row := by
  cases l with
  | nil => simp at hrow
  | cons x t =>
    by_cases hx : x = row
    · simp [hx]
    · exfalso
      have hlt : x.id < row.id := hmax x (List.mem_cons_self x t) hx
      have hmem : row ∈ t := by
        rcases List.mem_cons.mp hrow with h | h
        · exact absurd h.symm hx
        · exact h
      have hle : row.id ≤ x.id := List.rel_of_sorted_cons hs row hmem
      omega

/-! ## `POST /reservation` followed by `GET /reservation` -/

/-- C8: when a `POST /reservation` with the five required fields truthy is
answered with status 201, on a table whose identifiers are all below the next
value of the identifier sequence, the response carries the created record as
details, and a `GET /reservation` served next without a fault of the data layer
sends status 200 with an array whose first element is that record. -/
theorem create_then_list_first (S : Schema) (db : DB) (n : Nat) (cf : Option String)
    (qf : List (Option String)) (body : ReservationBody)
    (hreq : body.date.truthy = true ∧ body.number_of_guest.truthy = true ∧
      body.full_name.truthy = true ∧ body.email.truthy = true ∧
      body.phone_number.truthy = true)
    (hseq : ∀ b ∈ db.bookings, b.id < db.nextId)
    (hok : ∃ r, (handle S (.createReservation body) (World.arrival db n cf qf)).2.response =
      some r ∧ r.status = 201) :
    ∃ (row : Booking) (rows : List Booking),
      (handle S (.createReservation body) (World.arrival db n cf qf)).2.response =
          some ⟨201, .details "Reservation added successful" row⟩ ∧
        (handle S .listReservations
            (handle S (.createReservation body) (World.arrival db n cf qf)).2.thenArrival).2.response =
          some ⟨200, .bookings rows⟩ ∧
        rows.head? = some row := by
  have hm : missingRequired body = false := missingRequired_eq_false.mpr hreq
  obtain ⟨r, hr, hst⟩ := hok
  have hcf : cf = none := by
    cases cf with
    | none => rfl
    | some d =>
      simp [handle, createReservation, hm, World.arrival, bind, Handler.bind, pure,
        poolConnect, await, throwJs] at hr
  subst hcf
  have hq : ∀ d rest, qf ≠ some d :: rest := by
    intro d rest he
    subst he
    simp [handle, createReservation, hm, World.arrival, bind, Handler.bind, pure, poolConnect,
      await, tryCatchFinally, query, release, respond, throwJs, catchBlock, consoleError,
      emit] at hr
    rw [← hr] at hst
    simp at hst
  have hrun : (handle S (.createReservation body) (World.arrival db n none qf)).2 =
      { (World.arrival (insertBooking body db).2 n none qf.tail) with
        events := [.connect true,
          .query "INSERT INTO bookings (date, number_of_guest, full_name, email, phone_number, description, user_id, title) VALUES ($1, $2, $3, $4, $5, $6, $7, $8) RETURNING *" true,
          .release]
        response := some ⟨201, .details "Reservation added successful"
          (valuesRow body db.nextId)⟩ } := by
    rcases qf with _ | ⟨_ | d, rest⟩
    · simp [handle, createReservation, hm, World.arrival, bind, Handler.bind, pure,
        poolConnect, await, tryCatchFinally, query, release, respond, throwJs, insertBooking]
    · simp [handle, createReservation, hm, World.arrival, bind, Handler.bind, pure,
        poolConnect, await, tryCatchFinally, query, release, respond, throwJs, insertBooking]
    · exact absurd rfl (hq d rest)
  have hne : (insertBooking body db).2.bookings ≠ [] := by simp [insertBooking]
  have hlen : ((insertBooking body db).2.bookings.insertionSort idDesc).length ≠ 0 := by
    rw [List.length_insertionSort]
    exact fun h => hne (List.length_eq_zero.mp h)
  refine ⟨valuesRow body db.nextId,
    (insertBooking body db).2.bookings.insertionSort idDesc, ?_, ?_, ?_⟩
  · rw [hrun]
  · rw [hrun]
    simp [handle, listReservations, World.thenArrival, World.arrival, bind, Handler.bind,
      pure, poolConnect, await, tryCatchFinally, query, release, respond, throwJs,
      selectBookings, hlen, hne]
  · apply head_of_sorted_max (List.sorted_insertionSort idDesc _)
    · rw [List.mem_insertionSort]
      simp [insertBooking]
    · intro x hx hxne
      rw [List.mem_insertionSort] at hx
      simp only [insertBooking, List.mem_append, List.mem_singleton] at hx
      rcases hx with hx | hx
      · exact hseq x hx
      · exact absurd hx hxne

/-! ## `POST /signup` -/

/-- C2: two consecutive `POST /signup` requests carrying the same identifier, which
denotes a key held by no stored user, served without a fault of the data layer.
The first sends status 201 with the message "User register successful" and the
inserted record, which holds the request's identifier, name and email (SQL `NULL`
for a field the body lacks); the second sends status 400
with the message "User existed"; after both, the stored data is the original
with that one record added to the users. -/
theorem signup_twice (S : Schema) (db : DB) (n : Nat) (body again : SignupBody) (k : String)
    (hkey : sqlKey S.userKey body.id = some k)
    (hnew : ∀ u ∈ db.users, sqlKey S.userKey u.id ≠ some k)
    (hsame : again.id = body.id) :
    ∃ row : User,
      (row.id = body.id ∧ row.name = body.name.toParam ∧ row.email = body.email.toParam) ∧
      (handle S (.signup body) (World.arrival db n none [])).2.response =
          some ⟨201, .userDetails "User register successful" row⟩ ∧
        (handle S (.signup again)
            (handle S (.signup body) (World.arrival db n none [])).2.thenArrival).2.response =
          some ⟨400, .message "User existed"⟩ ∧
        (handle S (.signup again)
            (handle S (.signup body) (World.arrival db n none [])).2.thenArrival).2.db =
          { db with users := db.users ++ [row] } := by
  have hid : body.id.toParam = body.id := by
    cases h : body.id <;> simp_all [JVal.toParam, sqlKey]
  have hf : db.users.filter (S.userIs body.id) = [] := by
    rw [List.filter_eq_nil_iff]
    intro u hu hue
    have h := hnew u hu
    cases hk : sqlKey S.userKey u.id with
    | none => simp [Schema.userIs, hkey, hk, keyEq] at hue
    | some j =>
      simp [Schema.userIs, hkey, hk, keyEq] at hue
      exact h (by rw [hk, hue])
  have hrow : S.userIs body.id ⟨body.id, body.name.toParam, body.email.toParam⟩ = true := by
    simp [Schema.userIs, hkey, keyEq]
  have hdb : (handle S (.signup body) (World.arrival db n none [])).2.db =
      { db with users := db.users ++ [⟨body.id, body.name.toParam, body.email.toParam⟩] } := by
    simp [handle, signup, World.arrival, bind, Handler.bind, pure, poolConnect, await,
      tryCatchFinally, query, release, respond, throwJs, selectUserById, insertUser, hf, hid]
  have hco : (handle S (.signup body) (World.arrival db n none [])).2.checkedOut = n := by
    simp [handle, signup, World.arrival, bind, Handler.bind, pure, poolConnect, await,
      tryCatchFinally, query, release, respond, throwJs, selectUserById, insertUser, hf, hid]
  refine ⟨⟨body.id, body.name.toParam, body.email.toParam⟩, ⟨rfl, rfl, rfl⟩, ?_, ?_, ?_⟩
  · simp [handle, signup, World.arrival, bind, Handler.bind, pure, poolConnect, await,
      tryCatchFinally, query, release, respond, throwJs, selectUserById, insertUser, hf, hid]
  · simp only [World.thenArrival, hdb, hco]
    simp [handle, signup, World.arrival, bind, Handler.bind, pure, poolConnect, await,
      tryCatchFinally, query, release, respond, throwJs, selectUserById, insertUser, hf,
      hsame, List.filter_append, List.filter_cons, hrow]
  · simp only [World.thenArrival, hdb, hco]
    simp [handle, signup, World.arrival, bind, Handler.bind, pure, poolConnect, await,
      tryCatchFinally, query, release, respond, throwJs, selectUserById, insertUser, hf,
      hsame, List.filter_append, List.filter_cons, hrow]

/-! ## The effect of a request on the stored data -/

theorem selectUserById_snd (S : Schema) (id : JVal) (db : DB) :
    (selectUserById S id db).2 = db := rfl

theorem selectBookings_snd (db : DB) : (selectBookings db).2 = db := rfl

theorem selectBookingsByUser_snd (S : Schema) (id : JVal) (db : DB) :
    (selectBookingsByUser S id db).2 = db := rfl

theorem handle_db_cases (S : Schema) (req : Request) (w : World) :
    (handle S req w).2.db = w.db ∨
      (∃ body, req = .signup body ∧
        (handle S req w).2.db = (insertUser body.id body.name body.email w.db).2) ∨
      (∃ body, req = .createReservation body ∧ missingRequired body = false ∧
        (handle S req w).2.db = (insertBooking body w.db).2) ∨
      (∃ body, req = .updateReservation body ∧ missingRequired body = false ∧
        (handle S req w).2.db = (updateBooking S body w.db).2) ∨
      (∃ id, req = .deleteReservation id ∧
        (handle S req w).2.db = (deleteBooking S (.str id) w.db).2) := by
  obtain ⟨db, n, cf, qf, ev, resp⟩ := w
  cases req with
  | getUser id =>
    left
    rcases cf with _ | d <;> rcases qf with _ | ⟨_ | d, rest⟩ <;>
      cases hrows : (selectUserById S (.str id) db).1 <;>
      simp [handle, getUser, bind, Handler.bind, pure, poolConnect, await, tryCatchFinally,
        query, release, respond, throwJs, catchBlock, consoleError, emit, hrows,
        selectUserById_snd]
  | signup body =>
    rcases cf with _ | d <;> rcases qf with _ | ⟨_ | d, _ | ⟨_ | d2, rest⟩⟩ <;>
      cases hrows : (selectUserById S body.id db).1 <;>
      simp [handle, signup, bind, Handler.bind, pure, poolConnect, await, tryCatchFinally,
        query, release, respond, throwJs, catchBlock, consoleError, emit, hrows,
        selectUserById_snd, insertUser]
  | listReservations =>
    left
    rcases cf with _ | d <;> rcases qf with _ | ⟨_ | d, rest⟩ <;>
      cases hrows : (selectBookings db).1 <;>
      simp [handle, listReservations, bind, Handler.bind, pure, poolConnect, await,
        tryCatchFinally, query, release, respond, throwJs, catchBlock, consoleError, emit,
        hrows, selectBookings_snd]
  | reservationsOfUser id =>
    left
    rcases cf with _ | d <;> rcases qf with _ | ⟨_ | d, rest⟩ <;>
      cases hrows : (selectBookingsByUser S (.str id) db).1 <;>
      simp [handle, reservationsOfUser, bind, Handler.bind, pure, poolConnect, await,
        tryCatchFinally, query, release, respond, throwJs, catchBlock, consoleError, emit,
        hrows, selectBookingsByUser_snd]
  | createReservation body =>
    cases hm : missingRequired body <;>
    rcases cf with _ | d <;> rcases qf with _ | ⟨_ | d, rest⟩ <;>
      simp [handle, createReservation, bind, Handler.bind, pure, poolConnect, await,
        tryCatchFinally, query, release, respond, throwJs, catchBlock, consoleError, emit,
        hm, insertBooking]
  | updateReservation body =>
    cases hm : missingRequired body <;>
    rcases cf with _ | d <;> rcases qf with _ | ⟨_ | d, rest⟩ <;>
      cases hrows : (updateBooking S body db).1 <;>
      simp [handle, updateReservation, bind, Handler.bind, pure, poolConnect, await,
        tryCatchFinally, query, release, respond, throwJs, catchBlock, consoleError, emit,
        hm, hrows]
  | deleteReservation id =>
    rcases cf with _ | d <;> rcases qf with _ | ⟨_ | d, rest⟩ <;>
      cases hrows : (deleteBooking S (.str id) db).1 <;>
      simp [handle, deleteReservation, bind, Handler.bind, pure, poolConnect, await,
        tryCatchFinally, query, release, respond, throwJs, catchBlock, consoleError, emit,
        hrows]

theorem insertBooking_populated {r : ReservationBody} {db : DB}
    (hm : missingRequired r = false) (h : ∀ b ∈ db.bookings, b.populated) :
    ∀ b ∈ (insertBooking r db).2.bookings, b.populated := by
  obtain ⟨h1, h2, h3, h4, h5⟩ := missingRequired_eq_false.mp hm
  intro b hb
  simp only [insertBooking, List.mem_append, List.mem_singleton] at hb
  rcases hb with hb | rfl
  · exact h b hb
  · simp [Booking.populated, valuesRow, toParam_of_truthy, h1, h2, h3, h4, h5]

theorem updateBooking_populated {S : Schema} {r : ReservationBody} {db : DB}
    (hm : missingRequired r = false) (h : ∀ b ∈ db.bookings, b.populated) :
    ∀ b ∈ (updateBooking S r db).2.bookings, b.populated := by
  obtain ⟨h1, h2, h3, h4, h5⟩ := missingRequired_eq_false.mp hm
  intro b hb
  simp only [updateBooking, List.mem_map] at hb
  obtain ⟨x, hx, rfl⟩ := hb
  split
  · simp [Booking.populated, setColumns, toParam_of_truthy, h1, h2, h3, h4, h5]
  · exact h x hx

theorem deleteBooking_populated {S : Schema} {id : JVal} {db : DB}
    (h : ∀ b ∈ db.bookings, b.populated) :
    ∀ b ∈ (deleteBooking S id db).2.bookings, b.populated := by
  intro b hb
  simp only [deleteBooking, List.mem_filter] at hb
  exact h b hb.1

theorem handle_populated (S : Schema) (req : Request) (w : World)
    (h : ∀ b ∈ w.db.bookings, b.populated) :
    ∀ b ∈ (handle S req w).2.db.bookings, b.populated := by
  rcases handle_db_cases S req w with he | ⟨body, _, he⟩ | ⟨body, _, hm, he⟩ |
    ⟨body, _, hm, he⟩ | ⟨id, _, he⟩
  · rw [he]; exact h
  · rw [he]; exact h
  · rw [he]; exact insertBooking_populated hm h
  · rw [he]; exact updateBooking_populated hm h
  · rw [he]; exact deleteBooking_populated h

theorem insertBooking_wf {r : ReservationBody} {db : DB} (h : db.WF) :
    (insertBooking r db).2.WF := by
  obtain ⟨hnd, hlt⟩ := h
  constructor
  · simp only [insertBooking, List.map_append, List.map_cons, List.map_nil]
    rw [List.nodup_append]
    refine ⟨hnd, List.nodup_singleton _, ?_⟩
    intro a ha hb
    obtain ⟨x, hx, rfl⟩ := List.mem_map.mp ha
    have := hlt x hx
    simp [valuesRow] at hb
    omega
  · intro b hb
    simp only [insertBooking, List.mem_append, List.mem_singleton] at hb ⊢
    rcases hb with hb | rfl
    · exact Nat.lt_succ_of_lt (hlt b hb)
    · simp [valuesRow]

theorem updateBooking_ids (S : Schema) (r : ReservationBody) (db : DB) :
    (updateBooking S r db).2.bookings.map Booking.id = db.bookings.map Booking.id := by
  simp only [updateBooking, List.map_map]
  apply List.map_congr_left
  intro x _
  simp only [Function.comp]
  split <;> rfl

theorem updateBooking_wf {S : Schema} {r : ReservationBody} {db : DB} (h : db.WF) :
    (updateBooking S r db).2.WF := by
  obtain ⟨hnd, hlt⟩ := h
  constructor
  · rw [updateBooking_ids]; exact hnd
  · intro b hb
    have hmem : b.id ∈ (updateBooking S r db).2.bookings.map Booking.id :=
      List.mem_map.mpr ⟨b, hb, rfl⟩
    rw [updateBooking_ids] at hmem
    obtain ⟨x, hx, hxe⟩ := List.mem_map.mp hmem
    have := hlt x hx
    simp only [updateBooking]
    omega

theorem deleteBooking_wf {S : Schema} {id : JVal} {db : DB} (h : db.WF) :
    (deleteBooking S id db).2.WF := by
  obtain ⟨hnd, hlt⟩ := h
  constructor
  · exact (List.filter_sublist _).map Booking.id |>.nodup hnd
  · intro b hb
    simp only [deleteBooking, List.mem_filter] at hb
    exact hlt b hb.1

theorem handle_wf (S : Schema) (req : Request) (w : World) (h : w.db.WF) :
    (handle S req w).2.db.WF := by
  rcases handle_db_cases S req w with he | ⟨body, _, he⟩ | ⟨body, _, _, he⟩ |
    ⟨body, _, _, he⟩ | ⟨id, _, he⟩
  · rw [he]; exact h
  · rw [he]; exact h
  · rw [he]; exact insertBooking_wf h
  · rw [he]; exact updateBooking_wf h
  · rw [he]; exact deleteBooking_wf h

/-- Every reachable table is well formed: identifiers are pairwise distinct and
below the next value of the sequence. -/
theorem reachable_wf (S : Schema) (db : DB) (h : Reachable S db) : db.WF := by
  induction h with
  | start users nextId => exact ⟨List.nodup_nil, fun b hb => by simp at hb⟩
  | step req w _ ih => exact handle_wf S req w ih

/-! ## Required columns of stored bookings -/

/-- C9: in all stored data reachable from an empty `bookings` table by serving
requests (among them any sequence of `POST /reservation`, `PUT /reservation`
and `DELETE /reservation/:id`), every booking holds truthy values in `date`,
`number_of_guest`, `full_name`, `email` and `phone_number`; and there is
reachable data with a booking whose `description`, `title` and `user_id` are
all SQL `NULL`. -/
theorem reachable_bookings_populated (S : Schema) (db : DB) (h : Reachable S db) :
    (∀ b ∈ db.bookings,
        b.date.truthy = true ∧ b.number_of_guest.truthy = true ∧ b.full_name.truthy = true ∧
          b.email.truthy = true ∧ b.phone_number.truthy = true) ∧
      ∃ (db1 : DB) (b : Booking), Reachable S db1 ∧ b ∈ db1.bookings ∧
        b.description = .null ∧ b.title = .null ∧ b.user_id = .null := by
  constructor
  · induction h with
    | start users nextId => intro b hb; simp at hb
    | step req w _ ih => exact handle_populated S req w ih
  · refine ⟨_, valuesRow bareBody 1,
      Reachable.step (.createReservation bareBody) (World.arrival emptyDB 0 none [])
        (Reachable.start [] 1), ?_, rfl, rfl, rfl⟩
    have hm : missingRequired bareBody = false := by decide
    simp [handle, createReservation, hm, World.arrival, bind, Handler.bind, pure, poolConnect,
      await, tryCatchFinally, query, release, respond, throwJs, insertBooking, emptyDB]

/-! ## The pool -/

/-- Every handler that awaits `pool.connect()` before its `try` block gives back
what it checked out: the number of checked-out connections is as before, and
on a request served from arrival every acquisition is matched by one release. -/
theorem awaited_client_released (S : Schema) (req : Request) (db : DB) (n : Nat)
    (cf : Option String) (qf : List (Option String))
    (hreq : ∀ body, req ≠ .updateReservation body) :
    (handle S req (World.arrival db n cf qf)).2.checkedOut = n ∧
      releases (handle S req (World.arrival db n cf qf)).2 =
        acquisitions (handle S req (World.arrival db n cf qf)).2 ∧
      acquisitions (handle S req (World.arrival db n cf qf)).2 ≤ 1 := by
  cases req with
  | getUser id =>
    rcases cf with _ | d <;> rcases qf with _ | ⟨_ | d, rest⟩ <;>
      cases hrows : (selectUserById S (.str id) db).1 <;>
      simp [handle, getUser, World.arrival, bind, Handler.bind, pure, poolConnect, await,
        tryCatchFinally, query, release, respond, throwJs, catchBlock, consoleError, emit,
        hrows, releases, acquisitions]
  | signup body =>
    rcases cf with _ | d <;> rcases qf with _ | ⟨_ | d, _ | ⟨_ | d2, rest⟩⟩ <;>
      cases hrows : (selectUserById S body.id db).1 <;>
      simp [handle, signup, World.arrival, bind, Handler.bind, pure, poolConnect, await,
        tryCatchFinally, query, release, respond, throwJs, catchBlock, consoleError, emit,
        hrows, releases, acquisitions, insertUser]
  | listReservations =>
    rcases cf with _ | d <;> rcases qf with _ | ⟨_ | d, rest⟩ <;>
      cases hrows : (selectBookings db).1 <;>
      simp [handle, listReservations, World.arrival, bind, Handler.bind, pure, poolConnect,
        await, tryCatchFinally, query, release, respond, throwJs, catchBlock, consoleError,
        emit, hrows, releases, acquisitions]
  | reservationsOfUser id =>
    rcases cf with _ | d <;> rcases qf with _ | ⟨_ | d, rest⟩ <;>
      cases hrows : (selectBookingsByUser S (.str id) db).1 <;>
      simp [handle, reservationsOfUser, World.arrival, bind, Handler.bind, pure, poolConnect,
        await, tryCatchFinally, query, release, respond, throwJs, catchBlock, consoleError,
        emit, hrows, releases, acquisitions]
  | createReservation body =>
    cases hm : missingRequired body <;>
    rcases cf with _ | d <;> rcases qf with _ | ⟨_ | d, rest⟩ <;>
      simp [handle, createReservation, World.arrival, bind, Handler.bind, pure, poolConnect,
        await, tryCatchFinally, query, release, respond, throwJs, catchBlock, consoleError,
        emit, hm, insertBooking, releases, acquisitions]
  | updateReservation body => exact absurd rfl (hreq body)
  | deleteReservation id =>
    rcases cf with _ | d <;> rcases qf with _ | ⟨_ | d, rest⟩ <;>
      cases hrows : (deleteBooking S (.str id) db).1 <;>
      simp [handle, deleteReservation, World.arrival, bind, Handler.bind, pure, poolConnect,
        await, tryCatchFinally, query, release, respond, throwJs, catchBlock, consoleError,
        emit, hrows, releases, acquisitions]

/-- The handler of `PUT /reservation`, once past validation with a connection
obtained, never gives the connection back, whatever the statement does: the
`finally` block throws instead. -/
theorem updateReservation_keeps_connection (S : Schema) (body : ReservationBody) (db : DB)
    (n : Nat) (qf : List (Option String)) (hm : missingRequired body = false) :
    (handle S (.updateReservation body) (World.arrival db n none qf)).1 =
        .thrown (.typeError "client.release is not a function") ∧
      (handle S (.updateReservation body) (World.arrival db n none qf)).2.checkedOut = n + 1 ∧
      acquisitions (handle S (.updateReservation body) (World.arrival db n none qf)).2 = 1 ∧
      releases (handle S (.updateReservation body) (World.arrival db n none qf)).2 = 0 := by
  rcases qf with _ | ⟨_ | d, rest⟩ <;>
    cases hrows : (updateBooking S body db).1 <;>
    simp [handle, updateReservation, World.arrival, bind, Handler.bind, pure, poolConnect,
      await, tryCatchFinally, query, release, respond, throwJs, catchBlock, consoleError,
      emit, hm, hrows, releases, acquisitions]

/-- C4 (failing input): a `PUT /reservation` with a complete body, served with no
fault of the data layer and no connection checked out before.  One connection
is acquired, `release` gives none back, one connection is still checked out
when the handler finishes, and the handler finishes by the `TypeError` thrown
in its `finally` block. -/
theorem updateReservation_leak_at_sample :
    (handle sampleSchema (.updateReservation sampleBody) (World.arrival sampleDB 0 none [])).1 =
        .thrown (.typeError "client.release is not a function") ∧
      acquisitions
          (handle sampleSchema (.updateReservation sampleBody)
            (World.arrival sampleDB 0 none [])).2 = 1 ∧
      releases
          (handle sampleSchema (.updateReservation sampleBody)
            (World.arrival sampleDB 0 none [])).2 = 0 ∧
      (handle sampleSchema (.updateReservation sampleBody)
          (World.arrival sampleDB 0 none [])).2.checkedOut = 1 := by
  decide

/-! ## Failures of the data layer -/

/-- C5 (counterexample): `GET /users/:id` when `pool.connect()` fails.  The failed
acquisition is the only event, no response is sent (in particular not the 500
response), and the connection error leaves the handler as an exception. -/
theorem getUser_connect_failure_not_answered :
    (handle sampleSchema (.getUser "u7")
        (World.arrival sampleDB 0 (some "ECONNREFUSED") [])).2.events = [.connect false] ∧
      (handle sampleSchema (.getUser "u7")
        (World.arrival sampleDB 0 (some "ECONNREFUSED") [])).2.response = none ∧
      (handle sampleSchema (.getUser "u7")
        (World.arrival sampleDB 0 (some "ECONNREFUSED") [])).2.response ≠
          some ⟨500, .message "Internal server error"⟩ ∧
      (handle sampleSchema (.getUser "u7")
        (World.arrival sampleDB 0 (some "ECONNREFUSED") [])).1 =
          .thrown (.connectError "ECONNREFUSED") := by
  decide

/-- C5 (amended): whenever a statement executed while serving a request fails,
whatever the detail of the failure, the handler sends status 500 with exactly
the message "Internal server error", and in every handler but that of
`PUT /reservation` it then completes normally.  A failure of `pool.connect()`
in a handler that awaits it before the `try` block (every handler but that of
`PUT /reservation`, past validation) is not caught: it leaves the handler as
an exception and no response is sent. -/
theorem statement_failure_answered_500 (S : Schema) (req : Request) (db : DB) (n : Nat)
    (cf : Option String) (qf : List (Option String)) :
    ((∃ sql, Event.query sql false ∈ (handle S req (World.arrival db n cf qf)).2.events) →
        (handle S req (World.arrival db n cf qf)).2.response =
            some ⟨500, .message "Internal server error"⟩ ∧
          ((∀ body, req ≠ .updateReservation body) →
            (handle S req (World.arrival db n cf qf)).1 = .normal ())) ∧
      (∀ d, cf = some d → (∀ body, req ≠ .updateReservation body) →
        (∀ body, req = .createReservation body → missingRequired body = false) →
        (handle S req (World.arrival db n cf qf)).1 = .thrown (.connectError d) ∧
          (handle S req (World.arrival db n cf qf)).2.response = none) := by
  cases req with
  | getUser id =>
    rcases cf with _ | d <;> rcases qf with _ | ⟨_ | d, rest⟩ <;>
      cases hrows : (selectUserById S (.str id) db).1 <;>
      simp [handle, getUser, World.arrival, bind, Handler.bind, pure, poolConnect, await,
        tryCatchFinally, query, release, respond, throwJs, catchBlock, consoleError, emit,
        hrows]
  | signup body =>
    rcases cf with _ | d <;> rcases qf with _ | ⟨_ | d, _ | ⟨_ | d2, rest⟩⟩ <;>
      cases hrows : (selectUserById S body.id db).1 <;>
      simp [handle, signup, World.arrival, bind, Handler.bind, pure, poolConnect, await,
        tryCatchFinally, query, release, respond, throwJs, catchBlock, consoleError, emit,
        hrows, insertUser]
  | listReservations =>
    rcases cf with _ | d <;> rcases qf with _ | ⟨_ | d, rest⟩ <;>
      cases hrows : (selectBookings db).1 <;>
      simp [handle, listReservations, World.arrival, bind, Handler.bind, pure, poolConnect,
        await, tryCatchFinally, query, release, respond, throwJs, catchBlock, consoleError,
        emit, hrows]
  | reservationsOfUser id =>
    rcases cf with _ | d <;> rcases qf with _ | ⟨_ | d, rest⟩ <;>
      cases hrows : (selectBookingsByUser S (.str id) db).1 <;>
      simp [handle, reservationsOfUser, World.arrival, bind, Handler.bind, pure, poolConnect,
        await, tryCatchFinally, query, release, respond, throwJs, catchBlock, consoleError,
        emit, hrows]
  | createReservation body =>
    cases hm : missingRequired body <;>
    rcases cf with _ | d <;> rcases qf with _ | ⟨_ | d, rest⟩ <;>
      simp [handle, createReservation, World.arrival, bind, Handler.bind, pure, poolConnect,
        await, tryCatchFinally, query, release, respond, throwJs, catchBlock, consoleError,
        emit, hm, insertBooking]
  | updateReservation body =>
    cases hm : missingRequired body <;>
    rcases cf with _ | d <;> rcases qf with _ | ⟨_ | d, rest⟩ <;>
      cases hrows : (updateBooking S body db).1 <;>
      simp [handle, updateReservation, World.arrival, bind, Handler.bind, pure, poolConnect,
        await, tryCatchFinally, query, release, respond, throwJs, catchBlock, consoleError,
        emit, hm, hrows]
  | deleteReservation id =>
    rcases cf with _ | d <;> rcases qf with _ | ⟨_ | d, rest⟩ <;>
      cases hrows : (deleteBooking S (.str id) db).1 <;>
      simp [handle, deleteReservation, World.arrival, bind, Handler.bind, pure, poolConnect,
        await, tryCatchFinally, query, release, respond, throwJs, catchBlock, consoleError,
        emit, hrows]

/-! ## The theorems at sample requests -/

/-- Witness of C1: a body without `phone_number`, arriving at `sampleDB`. -/
theorem createReservation_rejects_missing_field_witness :
    incompleteBody.phone_number.truthy = false ∧
      handle sampleSchema (.createReservation incompleteBody) (World.arrival sampleDB 3 none []) =
        (.normal (),
         { World.arrival sampleDB 3 none [] with
           response := some ⟨400, .message "Please fulfill all required fields"⟩ }) :=
  ⟨by decide,
   createReservation_rejects_missing_field sampleSchema incompleteBody
     (World.arrival sampleDB 3 none []) (Or.inr (Or.inr (Or.inr (Or.inr (by decide)))))⟩

/-- Witness of C2: the identifier "u8" is new to `sampleDB`. -/
theorem signup_twice_witness :
    sqlKey sampleSchema.userKey sampleSignup.id = some "u8" ∧
      (∀ u ∈ sampleDB.users, sqlKey sampleSchema.userKey u.id ≠ some "u8") ∧
      ∃ row : User,
        (row.id = sampleSignup.id ∧ row.name = sampleSignup.name.toParam ∧
          row.email = sampleSignup.email.toParam) ∧
        (handle sampleSchema (.signup sampleSignup) (World.arrival sampleDB 0 none [])).2.response =
            some ⟨201, .userDetails "User register successful" row⟩ ∧
          (handle sampleSchema (.signup sampleSignup)
              (handle sampleSchema (.signup sampleSignup)
                (World.arrival sampleDB 0 none [])).2.thenArrival).2.response =
            some ⟨400, .message "User existed"⟩ ∧
          (handle sampleSchema (.signup sampleSignup)
              (handle sampleSchema (.signup sampleSignup)
                (World.arrival sampleDB 0 none [])).2.thenArrival).2.db =
            { sampleDB with users := sampleDB.users ++ [row] } :=
  ⟨by decide, by decide,
   signup_twice sampleSchema sampleDB 0 sampleSignup sampleSignup "u8" (by decide) (by decide)
     rfl⟩

/-- Witness of C5: a failing `DELETE` statement, and a failing `pool.connect()`
under `GET /reservation`. -/
theorem statement_failure_answered_500_witness :
    ((handle sampleSchema (.deleteReservation "1")
          (World.arrival sampleDB 0 none [some "deadlock detected"])).2.response =
        some ⟨500, .message "Internal server error"⟩ ∧
      (handle sampleSchema (.deleteReservation "1")
          (World.arrival sampleDB 0 none [some "deadlock detected"])).1 = .normal ()) ∧
      ((handle sampleSchema .listReservations
          (World.arrival sampleDB 0 (some "ECONNREFUSED") [])).1 =
        .thrown (.connectError "ECONNREFUSED") ∧
      (handle sampleSchema .listReservations
          (World.arrival sampleDB 0 (some "ECONNREFUSED") [])).2.response = none) :=
  ⟨⟨((statement_failure_answered_500 sampleSchema (.deleteReservation "1") sampleDB 0 none
        [some "deadlock detected"]).1
        ⟨"DELETE FROM bookings WHERE id = $1 RETURNING *;", by decide⟩).1,
    ((statement_failure_answered_500 sampleSchema (.deleteReservation "1") sampleDB 0 none
        [some "deadlock detected"]).1
        ⟨"DELETE FROM bookings WHERE id = $1 RETURNING *;", by decide⟩).2
        (fun _ h => by cases h)⟩,
   (statement_failure_answered_500 sampleSchema .listReservations sampleDB 0
      (some "ECONNREFUSED") []).2 "ECONNREFUSED" rfl (fun _ h => by cases h)
      (fun _ h => by cases h)⟩

/-- Witness of C6: no booking of `sampleDB` has the identifier 9. -/
theorem updateReservation_unknown_id_witness :
    (sampleBody.date.truthy = true ∧ sampleBody.number_of_guest.truthy = true ∧
        sampleBody.full_name.truthy = true ∧ sampleBody.email.truthy = true ∧
        sampleBody.phone_number.truthy = true) ∧
      (∀ b ∈ sampleDB.bookings,
        sqlKey sampleSchema.bookingKey { sampleBody with id := .num 9 }.id ≠ some b.id) ∧
      (handle sampleSchema (.updateReservation { sampleBody with id := .num 9 })
          (World.arrival sampleDB 0 none [])).2.response =
        some ⟨404, .message "Reservation not found"⟩ ∧
      (handle sampleSchema (.updateReservation { sampleBody with id := .num 9 })
          (World.arrival sampleDB 0 none [])).2.db = sampleDB :=
  ⟨by decide, by decide,
   updateReservation_unknown_id sampleSchema sampleDB 0 { sampleBody with id := .num 9 }
     (by decide) (by decide)⟩

/-- Witness of C7: the path parameter "1" denotes `sampleBooking`. -/
theorem deleteReservation_twice_witness :
    ((sampleDB.bookings.map Booking.id).Nodup ∧ sampleBooking ∈ sampleDB.bookings ∧
        sampleSchema.bookingKey (.str "1") = some sampleBooking.id) ∧
      (handle sampleSchema (.deleteReservation "1") (World.arrival sampleDB 0 none [])).2.response =
        some ⟨200, .deletedReservation "Reservation deleted successfully" sampleBooking⟩ ∧
      (handle sampleSchema (.deleteReservation "1") (World.arrival sampleDB 0 none [])).2.db =
        { sampleDB with bookings := sampleDB.bookings.erase sampleBooking } ∧
      sampleBooking ∉
        (handle sampleSchema (.deleteReservation "1")
          (World.arrival sampleDB 0 none [])).2.db.bookings ∧
      (handle sampleSchema (.deleteReservation "1")
          (handle sampleSchema (.deleteReservation "1")
            (World.arrival sampleDB 0 none [])).2.thenArrival).2.response =
        some ⟨404, .message "Reservation not found"⟩ :=
  ⟨by decide,
   deleteReservation_twice sampleSchema sampleDB 0 "1" sampleBooking (by decide) (by decide)
     (by decide)⟩

/-- Witness of C8: a complete body posted to `sampleDB`, whose identifiers 1 and 5
are below the next value 6 of the sequence. -/
theorem create_then_list_first_witness :
    ((∀ b ∈ sampleDB.bookings, b.id < sampleDB.nextId) ∧
        ∃ r, (handle sampleSchema (.createReservation sampleBody)
            (World.arrival sampleDB 0 none [])).2.response = some r ∧ r.status = 201) ∧
      ∃ (row : Booking) (rows : List Booking),
        (handle sampleSchema (.createReservation sampleBody)
            (World.arrival sampleDB 0 none [])).2.response =
            some ⟨201, .details "Reservation added successful" row⟩ ∧
          (handle sampleSchema .listReservations
              (handle sampleSchema (.createReservation sampleBody)
                (World.arrival sampleDB 0 none [])).2.thenArrival).2.response =
            some ⟨200, .bookings rows⟩ ∧
          rows.head? = some row :=
  ⟨⟨by decide, ⟨201, .details "Reservation added successful" (valuesRow sampleBody 6)⟩,
      by decide, rfl⟩,
   create_then_list_first sampleSchema sampleDB 0 none [] sampleBody (by decide) (by decide)
     ⟨⟨201, .details "Reservation added successful" (valuesRow sampleBody 6)⟩, by decide, rfl⟩⟩

/-- Witness of C9: the data after one `POST /reservation` on the empty table. -/
theorem reachable_bookings_populated_witness :
    Reachable sampleSchema
        (handle sampleSchema (.createReservation bareBody)
          (World.arrival emptyDB 0 none [])).2.db ∧
      ((∀ b ∈ (handle sampleSchema (.createReservation bareBody)
            (World.arrival emptyDB 0 none [])).2.db.bookings,
          b.date.truthy = true ∧ b.number_of_guest.truthy = true ∧
            b.full_name.truthy = true ∧ b.email.truthy = true ∧
            b.phone_number.truthy = true) ∧
        ∃ (db1 : DB) (b : Booking), Reachable sampleSchema db1 ∧ b ∈ db1.bookings ∧
          b.description = .null ∧ b.title = .null ∧ b.user_id = .null) :=
  ⟨Reachable.step (.createReservation bareBody) (World.arrival emptyDB 0 none [])
      (Reachable.start [] 1),
   reachable_bookings_populated sampleSchema _
     (Reachable.step (.createReservation bareBody) (World.arrival emptyDB 0 none [])
       (Reachable.start [] 1))⟩

/-- Witness of C10: the body's `id` 1 denotes `sampleBooking`; the body carries
the `user_id` "u7" while the stored booking has none. -/
theorem updateReservation_existing_id_witness :
    ((sampleBody.date.truthy = true ∧ sampleBody.number_of_guest.truthy = true ∧
          sampleBody.full_name.truthy = true ∧ sampleBody.email.truthy = true ∧
          sampleBody.phone_number.truthy = true) ∧
        (sampleDB.bookings.map Booking.id).Nodup ∧ sampleBooking ∈ sampleDB.bookings ∧
        sqlKey sampleSchema.bookingKey sampleBody.id = some sampleBooking.id) ∧
      ∃ u : Booking,
        (handle sampleSchema (.updateReservation sampleBody)
            (World.arrival sampleDB 0 none [])).2.response =
            some ⟨200, .details "Reservation updated" u⟩ ∧
          u.date = sampleBody.date ∧ u.number_of_guest = sampleBody.number_of_guest ∧
          u.full_name = sampleBody.full_name ∧ u.email = sampleBody.email ∧
          u.phone_number = sampleBody.phone_number ∧
          u.description = sampleBody.description.toParam ∧
          u.title = sampleBody.title.toParam ∧
          u.id = sampleBooking.id ∧ u.user_id = sampleBooking.user_id ∧
          (handle sampleSchema (.updateReservation sampleBody)
              (World.arrival sampleDB 0 none [])).2.db =
            { sampleDB with
              bookings := sampleDB.bookings.map (fun x => if x = sampleBooking then u else x) } :=
  ⟨by decide,
   updateReservation_existing_id sampleSchema sampleDB 0 sampleBody sampleBooking (by decide)
     (by decide) (by decide) (by decide)⟩

end BookingApi
